import Mathlib

/-!
# Verification of the TT document-generation core (src/app.py)

Shallow embedding of the amount-in-words converter, the flat-context
builder, the template reconciliation gate and the signature-asset
resolver of `src/app.py`, together with theorems settling the frozen
claims about the accompanying specification.

Python strings are modelled over their ASCII fragment (every string the
application manipulates here is ASCII); `str.strip`, `str.upper`,
`str.title`, `str.isdigit` and `int(...)` are embedded accordingly.
External effects (the Notion record store, the docx template library,
the filesystem) are modelled as explicit oracle parameters whose `none`
or `Except.error` values stand for a raised Python exception.
-/

/-- ASCII whitespace recognised by Python `str.strip()`. -/
def pySpace (c : Char) : Bool :=
  c = ' ' ∨ c = '\t' ∨ c = '\n' ∨ c = '\r' ∨ c = '\x0b' ∨ c = '\x0c'

/-- ASCII model of Python `str.strip()`: drop leading and trailing
whitespace. -/
def pyStrip (s : String) : String :=
  ⟨((s.data.dropWhile pySpace).reverse.dropWhile pySpace).reverse⟩

/-- Python `str.replace(old, new)` for a single-character pattern (the
only shape the application uses). -/
def pyReplaceChar (s : String) (c : Char) (r : String) : String :=
  ⟨s.data.foldr (fun ch acc => if ch = c then r.data ++ acc else ch :: acc) []⟩

/-- Python `str.split(sep)` for a single-character separator. -/
def pySplit (s : String) (sep : Char) : List String :=
  (s.data.splitOn sep).map (fun cs => ⟨cs⟩)

/-- ASCII model of Python `str.upper()` (src/app.py `upper`, line 64-66,
applied to strings). -/
def pyUpper (s : String) : String := ⟨s.data.map Char.toUpper⟩

/-- Numeric value of an ASCII digit character. -/
def digitVal (c : Char) : Nat := c.toNat - 48

/-- ASCII model of Python `str.isdigit()`: non-empty and all decimal
digits. -/
def pyIsdigit (s : String) : Bool := s ≠ "" && s.data.all Char.isDigit

/-- Digit tail of a Python integer literal: digits that may be separated
by single underscores (Python `int("1_000") = 1000`); accumulates the
value. -/
def pyIntDigitsAux : List Char → Nat → Option Nat
  | [], acc => some acc
  | '_' :: c :: rest, acc =>
      if c.isDigit then pyIntDigitsAux rest (acc * 10 + digitVal c) else none
  | ['_'], _ => none
  | c :: rest, acc =>
      if c.isDigit then pyIntDigitsAux rest (acc * 10 + digitVal c) else none

/-- Unsigned digit string accepted by Python `int(...)` (ASCII): a
leading digit followed by digits with optional single interior
underscores. -/
def pyNatDigits (cs : List Char) : Option Nat :=
  match cs with
  | [] => none
  | c :: rest => if c.isDigit then pyIntDigitsAux rest (digitVal c) else none

/-- ASCII model of Python `int(s)` for `str` input: optional surrounding
whitespace, optional sign, then a digit string; `none` models the raised
`ValueError`. -/
def pyInt (s : String) : Option Int :=
  let t := pyStrip s
  match t.data with
  | '+' :: rest => (pyNatDigits rest).map (fun n => (n : Int))
  | '-' :: rest => (pyNatDigits rest).map (fun n => -(n : Int))
  | cs => (pyNatDigits cs).map (fun n => (n : Int))

/-- Character stream of Python `str.title()` over ASCII: a letter is
upper-cased when the previous character is not a letter, lower-cased
otherwise. -/
def pyTitleAux : Bool → List Char → List Char
  | _, [] => []
  | prevAlpha, c :: t =>
      if c.isAlpha then
        (if prevAlpha then c.toLower else c.toUpper) :: pyTitleAux true t
      else c :: pyTitleAux false t

/-- ASCII model of Python `str.title()`. -/
def pyTitle (s : String) : String := ⟨pyTitleAux false s.data⟩

/-- Python truthiness-based `or` on an optional string:
`d.get(k) or fallback` yields the value when present and non-empty,
the fallback otherwise. -/
def orStr (o : Option String) (fallback : String) : String :=
  match o with
  | some s => if s = "" then fallback else s
  | none => fallback

/-!
## Model of the external `num2words` library (English cardinals)

`amount_to_words` calls `num2words(n, to="cardinal", lang=...)` with
`lang="en_IN"` for INR and `lang="en"` otherwise.  The library spells
lower-case English cardinals: tens and units are hyphenated
(`"thirty-four"`), a chunk of at least one hundred joins a remainder
below one hundred with `" and "`, larger remainders are joined with
`", "`, negative numbers carry a `"minus "` prefix, and the `en_IN`
locale groups by thousand / lakh (10^5) / crore (10^7) instead of
thousand / million / billion.  The library is not total: it raises
`OverflowError` at the locale's `MAXVAL` (see `num2wordsMaxVal` and
`amount_to_words_checked`), so the spellers below are only consulted
beneath that bound.  The `en_IN` speller is exact on its whole
non-raising domain (below 10^10); the `en` speller is exact below the
quadrillion scale (10^18) and approximates the rarely-generated larger
scale words above it, a region no stated theorem exercises.
-/

/-- English words for 0–19 (num2words low numwords). -/
def onesWord : Nat → String
  | 0 => "zero"
  | 1 => "one"
  | 2 => "two"
  | 3 => "three"
  | 4 => "four"
  | 5 => "five"
  | 6 => "six"
  | 7 => "seven"
  | 8 => "eight"
  | 9 => "nine"
  | 10 => "ten"
  | 11 => "eleven"
  | 12 => "twelve"
  | 13 => "thirteen"
  | 14 => "fourteen"
  | 15 => "fifteen"
  | 16 => "sixteen"
  | 17 => "seventeen"
  | 18 => "eighteen"
  | 19 => "nineteen"
  | _ => ""

/-- English tens words (num2words mid numwords). -/
def tensWord : Nat → String
  | 2 => "twenty"
  | 3 => "thirty"
  | 4 => "forty"
  | 5 => "fifty"
  | 6 => "sixty"
  | 7 => "seventy"
  | 8 => "eighty"
  | 9 => "ninety"
  | _ => ""

/-- Cardinal words below one hundred; tens and units are hyphenated as
num2words does. -/
def below100 (n : Nat) : String :=
  if n < 20 then onesWord n
  else if n % 10 = 0 then tensWord (n / 10)
  else tensWord (n / 10) ++ "-" ++ onesWord (n % 10)

/-- Cardinal words below one thousand; hundreds join a non-zero
remainder with `" and "` as num2words does. -/
def below1000 (n : Nat) : String :=
  if n < 100 then below100 n
  else if n % 100 = 0 then onesWord (n / 100) ++ " hundred"
  else onesWord (n / 100) ++ " hundred and " ++ below100 (n % 100)

/-- num2words merge rule for a scale chunk and its remainder: nothing
for a zero remainder, `" and "` before a remainder below one hundred,
`", "` otherwise. -/
def scaleJoin (left : String) (m : Nat) (mWords : String) : String :=
  if m = 0 then left
  else if m < 100 then left ++ " and " ++ mWords
  else left ++ ", " ++ mWords

/-- English (`lang="en"`) cardinal speller, fuel-indexed so that every
recursive call is structural; the fuel is always sufficient because each
call strictly decreases the number. -/
def numEnFuel : Nat → Nat → String
  | 0, _ => ""
  | fuel + 1, n =>
    if n < 1000 then below1000 n
    else if n < 10 ^ 6 then
      scaleJoin (numEnFuel fuel (n / 1000) ++ " thousand") (n % 1000)
        (numEnFuel fuel (n % 1000))
    else if n < 10 ^ 9 then
      scaleJoin (numEnFuel fuel (n / 10 ^ 6) ++ " million") (n % 10 ^ 6)
        (numEnFuel fuel (n % 10 ^ 6))
    else if n < 10 ^ 12 then
      scaleJoin (numEnFuel fuel (n / 10 ^ 9) ++ " billion") (n % 10 ^ 9)
        (numEnFuel fuel (n % 10 ^ 9))
    else if n < 10 ^ 15 then
      scaleJoin (numEnFuel fuel (n / 10 ^ 12) ++ " trillion") (n % 10 ^ 12)
        (numEnFuel fuel (n % 10 ^ 12))
    else
      scaleJoin (numEnFuel fuel (n / 10 ^ 15) ++ " quadrillion") (n % 10 ^ 15)
        (numEnFuel fuel (n % 10 ^ 15))

/-- Indian-English (`lang="en_IN"`) cardinal speller: thousand, lakh
(10^5) and crore (10^7) scale words.  In the library, values at or
above `10^10` never reach the speller — `to_cardinal` raises
`OverflowError` first (see `num2wordsMaxVal`) — so this function's
total values there lie outside the faithful domain and are diverted by
`amount_to_words_checked`. -/
def numEnINFuel : Nat → Nat → String
  | 0, _ => ""
  | fuel + 1, n =>
    if n < 1000 then below1000 n
    else if n < 10 ^ 5 then
      scaleJoin (numEnINFuel fuel (n / 1000) ++ " thousand") (n % 1000)
        (numEnINFuel fuel (n % 1000))
    else if n < 10 ^ 7 then
      scaleJoin (numEnINFuel fuel (n / 10 ^ 5) ++ " lakh") (n % 10 ^ 5)
        (numEnINFuel fuel (n % 10 ^ 5))
    else
      scaleJoin (numEnINFuel fuel (n / 10 ^ 7) ++ " crore") (n % 10 ^ 7)
        (numEnINFuel fuel (n % 10 ^ 7))

/-- `num2words(i, to="cardinal", lang=...)`: `indian` selects the
`en_IN` locale; negative numbers are prefixed with `"minus "`.  This
models only the returning executions: the library raises
`OverflowError` when `|i|` reaches the locale's `MAXVAL`, an error path
carried by `num2wordsMaxVal` and `amount_to_words_checked`. -/
def num2words_cardinal (indian : Bool) (i : Int) : String :=
  let n := i.natAbs
  let w := if indian then numEnINFuel (n + 1) n else numEnFuel (n + 1) n
  if i < 0 then "minus " ++ w else w

/-!
## `amount_to_words` (src/app.py lines 300–339)
-/

/-- Parsing stage of `amount_to_words` (src/app.py lines 301–309): strip,
drop `","` separators, split on `"."`; the major part is `int(parts[0])`
(0 when empty), the minor part is the first two digits after the decimal
point right-padded with zeros, or 0 when the fractional part is not all
digits; `none` models the empty input and the swallowed `ValueError`. -/
def amountParse (amount_str : String) : Option (Int × Nat) :=
  if amount_str = "" then none
  else
    let s := pyReplaceChar (pyStrip amount_str) ',' ""
    let parts := pySplit s '.'
    let p0 := parts.headD ""
    match (if p0 = "" then some (0 : Int) else pyInt p0) with
    | none => none
    | some major =>
        let minor : Nat :=
          match parts.drop 1 with
          | p1 :: _ =>
              if pyIsdigit p1 then
                ((p1.data ++ ['0', '0']).take 2).foldl
                  (fun a c => a * 10 + digitVal c) 0
              else 0
          | [] => 0
        some (major, minor)

/-- Currency unit-name selection of `amount_to_words`
(src/app.py lines 315–332): major and minor unit names chosen from the
upper-cased currency code and the parsed major and minor parts. -/
def currency_units (cur : String) (major : Int) (minor : Nat) :
    String × String :=
  if cur = "INR" then
    (if major = 1 then "Rupee" else "Rupees",
     if minor = 1 then "Paisa" else "Paise")
  else if cur = "USD" ∨ cur = "CAD" ∨ cur = "AUD" ∨ cur = "NZD" ∨
      cur = "SGD" ∨ cur = "HKD" then
    (if major = 1 then "Dollar" else "Dollars",
     if minor = 1 then "Cent" else "Cents")
  else if cur = "EUR" then
    (if major = 1 then "Euro" else "Euros",
     if minor = 1 then "Cent" else "Cents")
  else if cur = "GBP" then
    (if major = 1 then "Pound" else "Pounds", "Pence")
  else if cur = "AED" ∨ cur = "SAR" ∨ cur = "QAR" ∨ cur = "OMR" ∨
      cur = "BHD" ∨ cur = "KWD" then
    (if cur = "AED" then "Dirham"
     else if cur = "SAR" ∨ cur = "QAR" ∨ cur = "OMR" then "Rial"
     else "Dinar",
     "Fils")
  else ("", "")

/-- `amount_to_words` (src/app.py lines 300–339): decimal amount string
plus currency code to the words-form phrase; empty or unparsable input
yields `""`. -/
def amount_to_words (amount_str : String) (currency_code : String) :
    String :=
  match amountParse amount_str with
  | none => ""
  | some (major, minor) =>
    let indian := pyUpper currency_code = "INR"
    let major_words := pyReplaceChar (num2words_cardinal indian major) '-' " "
    let minor_words :=
      if minor ≠ 0 then
        pyReplaceChar (num2words_cardinal indian (minor : Int)) '-' " "
      else ""
    let cur := pyUpper currency_code
    let units := currency_units cur major minor
    if minor ≠ 0 ∧ units.2 ≠ "" then
      pyTitle major_words ++ " " ++ units.1 ++ " And " ++
        pyTitle minor_words ++ " " ++ units.2 ++ " Only"
    else if units.1 ≠ "" then
      pyTitle major_words ++ " " ++ units.1 ++ " Only"
    else if minor = 0 then
      pyTitle major_words ++ " Only"
    else
      pyTitle major_words ++ " Point " ++ pyTitle minor_words ++ " Only"

/-- The `MAXVAL` bound of the num2words locale used by
`amount_to_words`: the library raises `OverflowError` when the absolute
value to be spelled reaches `1000 ×` its largest scale word — `10^10`
for the `en_IN` locale (largest word crore, `10^7`) and `10^306` for the
`en` locale (largest generated scale word `10^303`). -/
def num2wordsMaxVal (indian : Bool) : Nat :=
  if indian then 10 ^ 10 else 10 ^ 306

/-- `amount_to_words` with the numeral speller's partiality made
explicit (src/app.py lines 300–339): `some r` models a normal return and
agrees with `amount_to_words`; `none` models the `OverflowError` that
`num2words` raises for a major part at or beyond the locale's `MAXVAL` —
the call at lines 312–313 sits outside the `try`, so that exception
propagates to the caller.  The minor part is below 100 and can never
overflow. -/
def amount_to_words_checked (amount_str : String) (currency_code : String) :
    Option String :=
  match amountParse amount_str with
  | none => some ""
  | some (major, _) =>
      if num2wordsMaxVal (pyUpper currency_code = "INR") ≤ major.natAbs
      then none
      else some (amount_to_words amount_str currency_code)

/-!
## Template variable enumeration and reconciliation
(src/app.py lines 202–210 and 491–496)
-/

/-- A raised Python exception, carrying its formatted message
(`f"{type(e).__name__}: {e}"`); `typeError` is distinguished because
`list_template_vars` handles it specially. -/
inductive PyExc where
  | typeError (msg : String)
  | otherExc (msg : String)
deriving DecidableEq, Repr

/-- Formatted message of a raised exception. -/
def pyExcMsg : PyExc → String
  | PyExc.typeError m => m
  | PyExc.otherExc m => m

/-- Code-point-wise lexicographic comparison of character lists: the
order Python `sorted` applies to the template's variable names. -/
def lexLe : List Char → List Char → Bool
  | [], _ => true
  | _ :: _, [] => false
  | a :: as, b :: bs =>
      if a.toNat < b.toNat then true
      else if b.toNat < a.toNat then false
      else lexLe as bs

/-- Python string `<=`: lexicographic comparison on code points. -/
def strLe (s t : String) : Prop := lexLe s.data t.data = true

instance : DecidableRel strLe := fun s t => by unfold strLe; infer_instance

/-- Python `sorted(list(s))` for a set of names: the distinct elements
in increasing lexicographic order. -/
def sortedDedup (l : List String) : List String :=
  List.insertionSort strLe l.dedup

/-- `list_template_vars` (src/app.py lines 202–210).  The docx library's
variable enumeration is an external call, modelled by two oracles: the
outcome of `get_undeclared_template_variables(env)` and of the
`TypeError`-triggered retry `get_undeclared_template_variables()`; each
yields the declared-name set or a raised exception.  A `TypeError` from
the first call runs the retry, whose outcome (value or exception) is
final; any other exception is swallowed into an empty list. -/
def list_template_vars (withEnv withoutEnv : Except PyExc (List String)) :
    Except PyExc (List String) :=
  match withEnv with
  | Except.ok vs => Except.ok (sortedDedup vs)
  | Except.error (PyExc.typeError _) =>
      match withoutEnv with
      | Except.ok vs => Except.ok (sortedDedup vs)
      | Except.error e => Except.error e
  | Except.error (PyExc.otherExc _) => Except.ok []

/-- The reconciliation step of `generate` (src/app.py line 493):
`[m for m in wanted if m not in ctx]`, membership tested case-sensitively
against the context's keys. -/
def missing_vars (wanted ctxKeys : List String) : List String :=
  wanted.filter (fun m => !(ctxKeys.contains m))

/-!
## Signature asset resolver (src/app.py lines 212–295)

The Notion record store is an explicit oracle: `fetchPageSignature`
models `GET /v1/pages/{id}` followed by `get_file_url` on the
`Signature` property (`none` = the fetch raised), and `listRemitters`
models `notion_get_database` + `notion_query_all` over the remitter
collection (`none` = either call raised), each page reduced to its title
text and extracted signature-file URL.
-/

/-- A remitter page of the external collection, reduced to the fields
the name search inspects: `get_title(props[title_prop])` and
`get_file_url(props["Signature"])`. -/
structure RemPage where
  pageName : String
  signatureUrl : String
deriving DecidableEq, Repr

/-- Oracle for the external record store calls made by the resolver. -/
structure NotionStore where
  fetchPageSignature : String → Option String
  listRemitters : Option (List RemPage)

/-- The `remitter` record of the `/generate` request body; `none` models
an absent key (`dict.get`). -/
structure RemitterIn where
  id : Option String
  name : Option String
  account_no : Option String
  address : Option String
  phone : Option String
  id_type : Option String
  id_value : Option String
  signature_url : Option String
  remitter_name : Option String

/-- `build_signature_image` (src/app.py lines 212–229): an empty URL or
a failed download degrades to `""`; a successful download yields the
inline-image handle (modelled by the string returned by the `download`
oracle). -/
def build_signature_image (download : String → Option String)
    (url : String) : String :=
  if url = "" then ""
  else
    match download url with
    | some handle => handle
    | none => ""

/-- `find_remitter_signature_by_name` (src/app.py lines 231–255): given
a non-empty name, enumerate the remitter collection and return the
signature URL of the first page whose non-empty title, stripped and
upper-cased, equals the stripped, upper-cased name; an empty name, a
raised store call or an exhausted scan yields `""`. -/
def find_remitter_signature_by_name (store : NotionStore)
    (name : String) : String :=
  if name = "" then ""
  else
    match store.listRemitters with
    | none => ""
    | some pages =>
      let target := pyUpper (pyStrip name)
      match pages.find?
          (fun pg => (pg.pageName != "") &&
            (pyUpper (pyStrip pg.pageName) == target)) with
      | some pg => pg.signatureUrl
      | none => ""

/-- `fetch_signature_url_from_notion` (src/app.py lines 257–295): use
the body's `signature_url` when truthy; otherwise, when the body carries
a truthy `id`, fetch the page and return its extracted signature URL
(even when that is empty), falling through to the name search only when
the fetch raises; with no `id`, search by
`remitter.get("name") or remitter.get("remitter_name") or ""`. -/
def fetch_signature_url_from_notion (store : NotionStore)
    (remitter : RemitterIn) : String :=
  let url := orStr remitter.signature_url ""
  if url ≠ "" then url
  else
    let page_id := orStr remitter.id ""
    if page_id ≠ "" then
      match store.fetchPageSignature page_id with
      | some u => u
      | none =>
          find_remitter_signature_by_name store
            (orStr remitter.name (orStr remitter.remitter_name ""))
    else
      find_remitter_signature_by_name store
        (orStr remitter.name (orStr remitter.remitter_name ""))

/-!
## Context builder and the `/generate` handler (src/app.py lines 435–537)
-/

/-- The `beneficiary` record of the `/generate` request body. -/
structure BeneficiaryIn where
  beneficiary_name : Option String
  beneficiary_account_number : Option String
  beneficiary_address : Option String
  beneficiary_country : Option String
  beneficiary_bank_name : Option String
  beneficiary_bank_address : Option String
  beneficiary_bank_country : Option String
  beneficiary_bank_swift : Option String
  intermediary_bank_name : Option String
  intermediary_bank_address : Option String
  intermediary_bank_swift : Option String

/-- The `extra` record of the `/generate` request body. -/
structure ExtraIn where
  date : Option String
  currency : Option String
  amount_figures : Option String
  charges : Option String
  account_to_be_debited_number_currency : Option String
  notes : Option String
  overwrite : Bool
  out_path : Option String

/-- The flat rendering context built by `generate`
(src/app.py lines 447–480), as the ordered association list of the
dict literal; `today` stands for `str(datetime.date.today())`, the
current date in ISO `YYYY-MM-DD` form. -/
def buildCtx (remitter : RemitterIn) (beneficiary : BeneficiaryIn)
    (extra : ExtraIn) (today : String) : List (String × String) :=
  let currency := pyUpper (pyStrip (orStr extra.currency "USD"))
  let amount_figures := pyStrip (orStr extra.amount_figures "")
  let amount_figures_text := pyUpper (amount_to_words amount_figures currency)
  [("beneficiary_account_number", beneficiary.beneficiary_account_number.getD ""),
   ("beneficiary_name", pyUpper (beneficiary.beneficiary_name.getD "")),
   ("beneficiary_address", pyUpper (beneficiary.beneficiary_address.getD "")),
   ("beneficiary_country", pyUpper (beneficiary.beneficiary_country.getD "")),
   ("beneficiary_bank_name", pyUpper (beneficiary.beneficiary_bank_name.getD "")),
   ("beneficiary_bank_address", pyUpper (beneficiary.beneficiary_bank_address.getD "")),
   ("beneficiary_bank_country", pyUpper (beneficiary.beneficiary_bank_country.getD "")),
   ("beneficiary_bank_swift", pyUpper (beneficiary.beneficiary_bank_swift.getD "")),
   ("intermediary_bank_name", pyUpper (beneficiary.intermediary_bank_name.getD "")),
   ("intermediary_bank_address", pyUpper (beneficiary.intermediary_bank_address.getD "")),
   ("intermediary_bank_swift", pyUpper (beneficiary.intermediary_bank_swift.getD "")),
   ("remitter_name", pyUpper (remitter.name.getD "")),
   ("remitter_account_no", remitter.account_no.getD ""),
   ("remitter_address", pyUpper (remitter.address.getD "")),
   ("remitter_phone", remitter.phone.getD ""),
   ("remitter_id_type", pyUpper (remitter.id_type.getD "")),
   ("remitter_id_value", pyUpper (remitter.id_value.getD "")),
   ("date", orStr extra.date today),
   ("currency", currency),
   ("amount_figures", amount_figures),
   ("amount_figures_text", amount_figures_text),
   ("charges", pyUpper (extra.charges.getD "SHA")),
   ("account_to_be_debited_number_currency",
     pyUpper (extra.account_to_be_debited_number_currency.getD "")),
   ("notes", pyUpper (extra.notes.getD ""))]

/-- The JSON object shape of a `/generate` response body. -/
structure JsonResp where
  ok : Bool
  error : Option String
  missing_variables : Option (List String)
  message : Option String
deriving DecidableEq, Repr

/-- Outcome of one `/generate` call: a JSON body with an HTTP status, or
a `send_file` attachment with its download name. -/
inductive GenResult where
  | json (resp : JsonResp) (status : Nat)
  | file (download_name : String)
deriving DecidableEq, Repr

/-- Oracle bundle for the external effects of one `/generate` call:
`envError` models `_assert_env` raising, `tplLoadError` the
`DocxTemplate` load raising, `varsWithEnv`/`varsWithoutEnv` the two
variable-enumeration calls, and `renderError` the `tpl.render` step
raising; each carried string is the exception's formatted message. -/
structure GenWorld where
  envError : Option String
  tplPath : String
  tplLoadError : Option String
  store : NotionStore
  sigDownload : String → Option String
  varsWithEnv : Except PyExc (List String)
  varsWithoutEnv : Except PyExc (List String)
  renderError : Option String

/-- The `/generate` handler (src/app.py lines 435–537), returning the
response and whether `tpl.render` was invoked.  The save-to-path success
message abstracts the code's `BASE_DIR` path resolution (lines 508–513)
and carries the caller's raw path. -/
def generate (w : GenWorld) (remitter : RemitterIn)
    (beneficiary : BeneficiaryIn) (extra : ExtraIn) (today : String) :
    GenResult × Bool :=
  match w.envError with
  | some e => (GenResult.json (JsonResp.mk false (some e) none none) 400, false)
  | none =>
    let currency := pyUpper (pyStrip (orStr extra.currency "USD"))
    let ctx := buildCtx remitter beneficiary extra today
    match w.tplLoadError with
    | some e =>
        (GenResult.json (JsonResp.mk false (some e) none none) 500, false)
    | none =>
      let signature_url := fetch_signature_url_from_notion w.store remitter
      let sigVal := build_signature_image w.sigDownload signature_url
      let ctx2 := ctx ++ [("signature", sigVal)]
      match list_template_vars w.varsWithEnv w.varsWithoutEnv with
      | Except.error e =>
          (GenResult.json
            (JsonResp.mk false (some (pyExcMsg e)) none none) 500, false)
      | Except.ok wanted =>
        let missing := missing_vars wanted (ctx2.map Prod.fst)
        if missing ≠ [] then
          (GenResult.json
            (JsonResp.mk false (some "Missing variables for template")
              (some missing) none) 400, false)
        else
          match w.renderError with
          | some e =>
              (GenResult.json (JsonResp.mk false (some e) none none) 500, true)
          | none =>
            if extra.overwrite then
              (GenResult.json
                (JsonResp.mk true none none
                  (some ("Overwrote template: " ++ w.tplPath))) 200, true)
            else if orStr extra.out_path "" ≠ "" then
              (GenResult.json
                (JsonResp.mk true none none
                  (some ("Saved to: " ++ orStr extra.out_path ""))) 200, true)
            else
              let beneficiary_name :=
                pyUpper (pyReplaceChar
                  (pyStrip (orStr beneficiary.beneficiary_name "Unknown"))
                  '/' "-")
              let amount_value :=
                pyReplaceChar (pyStrip (orStr extra.amount_figures "0")) ',' ""
              let created_date := pyStrip (orStr extra.date today)
              let safe_name :=
                pyReplaceChar
                  (pyReplaceChar
                    ("FILE NAME – " ++ beneficiary_name ++ " – " ++
                      pyUpper (pyStrip currency) ++ " " ++ amount_value ++
                      " – " ++ created_date)
                    ':' "-")
                  '/' "-"
              (GenResult.file (safe_name ++ ".docx"), true)

/-!
## Reference definitions used to state the claims
-/

/-- The currency codes of the supported unit-name table. -/
def supportedCurrencies : List String :=
  ["INR", "USD", "CAD", "AUD", "NZD", "SGD", "HKD", "EUR", "GBP",
   "AED", "SAR", "QAR", "OMR", "BHD", "KWD"]

/-- The unit-name selection rule stated by the spec: the singular name
exactly when the numeric part equals 1, the plural name otherwise;
tables are (major singular, major plural, minor singular, minor
plural). -/
def unitChoice (t : String × String × String × String) (major : Int)
    (minor : Nat) : String × String :=
  (if major = 1 then t.1 else t.2.1, if minor = 1 then t.2.2.1 else t.2.2.2)

/-- From the spec's words (claim C2): the claimed unit-name table, in
which the Gulf currencies' major units pluralise to "Dirhams", "Rials"
and "Dinars". -/
def claimedUnitTable (cur : String) : String × String × String × String :=
  if cur = "INR" then ("Rupee", "Rupees", "Paisa", "Paise")
  else if cur = "USD" ∨ cur = "CAD" ∨ cur = "AUD" ∨ cur = "NZD" ∨
      cur = "SGD" ∨ cur = "HKD" then ("Dollar", "Dollars", "Cent", "Cents")
  else if cur = "EUR" then ("Euro", "Euros", "Cent", "Cents")
  else if cur = "GBP" then ("Pound", "Pounds", "Pence", "Pence")
  else if cur = "AED" then ("Dirham", "Dirhams", "Fils", "Fils")
  else if cur = "SAR" ∨ cur = "QAR" ∨ cur = "OMR" then
    ("Rial", "Rials", "Fils", "Fils")
  else if cur = "BHD" ∨ cur = "KWD" then ("Dinar", "Dinars", "Fils", "Fils")
  else ("", "", "", "")

/-- The unit-name table the code actually implements (src/app.py lines
315–332): as `claimedUnitTable`, except that the Gulf currencies' major
unit name never pluralises. -/
def codeUnitTable (cur : String) : String × String × String × String :=
  if cur = "INR" then ("Rupee", "Rupees", "Paisa", "Paise")
  else if cur = "USD" ∨ cur = "CAD" ∨ cur = "AUD" ∨ cur = "NZD" ∨
      cur = "SGD" ∨ cur = "HKD" then ("Dollar", "Dollars", "Cent", "Cents")
  else if cur = "EUR" then ("Euro", "Euros", "Cent", "Cents")
  else if cur = "GBP" then ("Pound", "Pounds", "Pence", "Pence")
  else if cur = "AED" then ("Dirham", "Dirham", "Fils", "Fils")
  else if cur = "SAR" ∨ cur = "QAR" ∨ cur = "OMR" then
    ("Rial", "Rial", "Fils", "Fils")
  else if cur = "BHD" ∨ cur = "KWD" then ("Dinar", "Dinar", "Fils", "Fils")
  else ("", "", "", "")

/-- The fixed key list of the context dict literal of `generate`
(src/app.py lines 452–480), before the `signature` key is added. -/
def contextKeys : List String :=
  ["beneficiary_account_number", "beneficiary_name", "beneficiary_address",
   "beneficiary_country", "beneficiary_bank_name", "beneficiary_bank_address",
   "beneficiary_bank_country", "beneficiary_bank_swift",
   "intermediary_bank_name", "intermediary_bank_address",
   "intermediary_bank_swift", "remitter_name", "remitter_account_no",
   "remitter_address", "remitter_phone", "remitter_id_type",
   "remitter_id_value", "date", "currency", "amount_figures",
   "amount_figures_text", "charges", "account_to_be_debited_number_currency",
   "notes"]

/-- The end-to-end scenario remitter `{name:"Alice", account_no:"123"}`. -/
def aliceRemitter : RemitterIn :=
  RemitterIn.mk none (some "Alice") (some "123") none none none none none none

/-- The end-to-end scenario beneficiary `{beneficiary_name:"Bob"}`. -/
def bobBeneficiary : BeneficiaryIn :=
  BeneficiaryIn.mk (some "Bob") none none none none none none none none
    none none

/-- The end-to-end scenario extras
`{currency:"INR", amount_figures:"1500.50"}`. -/
def inrExtra : ExtraIn :=
  ExtraIn.mk none (some "INR") (some "1500.50") none none none false none

/-- A request remitter record with every key absent. -/
def emptyRemitterIn : RemitterIn :=
  RemitterIn.mk none none none none none none none none none

/-- A request beneficiary record with every key absent. -/
def emptyBeneficiaryIn : BeneficiaryIn :=
  BeneficiaryIn.mk none none none none none none none none none none none

/-- A request extras record with every key absent. -/
def emptyExtraIn : ExtraIn :=
  ExtraIn.mk none none none none none none false none

/-- A concrete store with two remitter pages, used to evaluate the
resolver and the handler on explicit inputs. -/
def exampleStore : NotionStore :=
  NotionStore.mk
    (fun pid => if pid = "p1" then some "http://sig-by-id" else none)
    (some [RemPage.mk "Alice" "http://sig-alice", RemPage.mk "Bob" ""])

/-- A concrete oracle world for `generate` whose template declares one
variable the context cannot satisfy. -/
def exampleWorldMissing : GenWorld :=
  GenWorld.mk none "TT_Form_template.docx" none exampleStore
    (fun u => some u) (Except.ok ["zzz_var"]) (Except.ok []) none

/-- A concrete oracle world for `generate` whose variable enumeration
raises a non-`TypeError` exception. -/
def exampleWorldVarsExc : GenWorld :=
  GenWorld.mk none "TT_Form_template.docx" none exampleStore
    (fun u => some u) (Except.error (PyExc.otherExc "AttributeNotFound: x"))
    (Except.ok []) none

/-!
## Order lemmas for the name sort
-/

lemma lexLe_total : ∀ as bs : List Char, lexLe as bs = true ∨ lexLe bs as = true := by
  intro as
  induction as with
  | nil => intro bs; left; rfl
  | cons a as ih =>
    intro bs
    cases bs with
    | nil => right; rfl
    | cons b bs =>
      by_cases hab : a.toNat < b.toNat
      · left; simp [lexLe, hab]
      · by_cases hba : b.toNat < a.toNat
        · right; simp [lexLe, hba]
        · rcases ih bs with h | h
          · left; simp [lexLe, hab, hba, h]
          · right; simp [lexLe, hab, hba, h]

lemma lexLe_trans :
    ∀ as bs cs : List Char, lexLe as bs = true → lexLe bs cs = true →
      lexLe as cs = true := by
  intro as
  induction as with
  | nil => intro bs cs _ _; rfl
  | cons a as ih =>
    intro bs cs h1 h2
    cases bs with
    | nil => simp [lexLe] at h1
    | cons b bs =>
      cases cs with
      | nil => simp [lexLe] at h2
      | cons c cs =>
        simp only [lexLe] at h1 h2 ⊢
        by_cases hab : a.toNat < b.toNat <;>
          by_cases hba : b.toNat < a.toNat <;>
          by_cases hbc : b.toNat < c.toNat <;>
          by_cases hcb : c.toNat < b.toNat <;>
          simp [hab, hba, hbc, hcb] at h1 h2 ⊢ <;>
          first
          | omega
          | (have hac : a.toNat < c.toNat := by omega; simp [hac])
          | (have hac : ¬ a.toNat < c.toNat := by omega
             have hca : ¬ c.toNat < a.toNat := by omega
             simp [hac, hca]
             first
             | exact ih bs cs h1 h2
             | exact ⟨by omega, ih bs cs h1 h2⟩)

instance : IsTotal String strLe :=
  ⟨fun s t => lexLe_total s.data t.data⟩

instance : IsTrans String strLe :=
  ⟨fun a b c => lexLe_trans a.data b.data c.data⟩

/-!
## Claim theorems
-/

/-- **C5** counterexample: the claim's "never raises over all string
inputs" fails — `"10000000000"` is a parsable amount (major part
`10^10`, minor 0), yet with currency INR the unguarded `num2words` call
raises `OverflowError` at the `en_IN` locale's `MAXVAL`, modelled by
`amount_to_words_checked` returning `none` instead of a string. -/
theorem amount_words_overflow_cex :
    amountParse "10000000000" = some ((10000000000 : Int), 0) ∧
    amount_to_words_checked "10000000000" "INR" = none :=
  ⟨by decide, by decide⟩

/-- **C5** (corrected): `amount_to_words` is pure, and empty or
unparsable amount strings never raise — they yield `""` — but the
function is not total over all string inputs: a parsable amount whose
major part reaches the numeral speller's overflow bound (`10^10` for
INR's `en_IN` locale, `10^306` otherwise) makes the `num2words` call —
which sits outside the `try` — raise `OverflowError`, and that exception
propagates; below the bound the call returns normally. -/
theorem amount_to_words_raises_only_on_overflow :
    (∀ cur, amount_to_words_checked "" cur = some "") ∧
    (∀ cur, amount_to_words_checked "abc" cur = some "") ∧
    (∀ s cur, amountParse s = none →
      amount_to_words_checked s cur = some "") ∧
    (∀ s cur major minor, amountParse s = some (major, minor) →
      major.natAbs < num2wordsMaxVal (pyUpper cur = "INR") →
      amount_to_words_checked s cur = some (amount_to_words s cur)) ∧
    (∀ s cur major minor, amountParse s = some (major, minor) →
      num2wordsMaxVal (pyUpper cur = "INR") ≤ major.natAbs →
      amount_to_words_checked s cur = none) ∧
    amount_to_words_checked "9999999999.99" "INR" =
      some (amount_to_words "9999999999.99" "INR") := by
  refine ⟨fun cur => rfl, fun cur => rfl, fun s cur h => ?_,
    fun s cur major minor h hlt => ?_, fun s cur major minor h hge => ?_,
    by decide⟩
  · simp [amount_to_words_checked, h]
  · simp [amount_to_words_checked, h, Nat.not_le.mpr hlt]
  · simp [amount_to_words_checked, h, hge]

/-- Witness for C5's below-bound and unparsable conjuncts at concrete
inputs. -/
theorem amount_to_words_raises_only_on_overflow_witness :
    amount_to_words_checked "12.34" "USD" =
      some (amount_to_words "12.34" "USD") :=
  amount_to_words_raises_only_on_overflow.2.2.2.1 "12.34" "USD" 12 34
    (by decide) (by decide)

/-- **C6** (confirmed): for every parsable amount the output is composed
in priority order — minor-and-minor-unit sentence, else major-unit
sentence, else the unknown-currency fallback with `"Point"` — with every
words segment title-cased; and `to_words("5.00","XYZ") = "Five Only"`. -/
theorem amount_to_words_composition :
    (∀ s cur major minor, amountParse s = some (major, minor) →
      amount_to_words s cur =
        (let mw := pyTitle (pyReplaceChar
          (num2words_cardinal (pyUpper cur = "INR") major) '-' " ")
         let nw := pyTitle (pyReplaceChar
          (num2words_cardinal (pyUpper cur = "INR") (minor : Int)) '-' " ")
         let units := currency_units (pyUpper cur) major minor
         if minor ≠ 0 ∧ units.2 ≠ "" then
           mw ++ " " ++ units.1 ++ " And " ++ nw ++ " " ++ units.2 ++ " Only"
         else if units.1 ≠ "" then mw ++ " " ++ units.1 ++ " Only"
         else if minor = 0 then mw ++ " Only"
         else mw ++ " Point " ++ nw ++ " Only")) ∧
    amount_to_words "5.00" "XYZ" = "Five Only" := by
  refine ⟨fun s cur major minor h => ?_, by decide⟩
  simp only [amount_to_words, h]
  by_cases h0 : minor = 0 <;> simp [h0]

/-- Witness for C6's composition conjunct at `"2.50"`/`"USD"`. -/
theorem amount_to_words_composition_witness :
    amount_to_words "2.50" "USD" = "Two Dollars And Fifty Cents Only" :=
  (amount_to_words_composition.1 "2.50" "USD" 2 50 (by decide)).trans
    (by decide)

/-- **C7** (confirmed): when the cleaned amount splits at a decimal
point, the minor part is the two-digit prefix of the fractional part
right-padded with zeros (`"7.5"` → minor 50), a non-numeric fractional
part counts as zero, and the major part is the integer before the
point. -/
theorem amount_parse_decimal_split :
    (∀ s p0 p1 rest, s ≠ "" →
      pySplit (pyReplaceChar (pyStrip s) ',' "") '.' = p0 :: p1 :: rest →
      amountParse s =
        match (if p0 = "" then some (0 : Int) else pyInt p0) with
        | none => none
        | some major =>
            some (major,
              if pyIsdigit p1 then
                ((p1.data ++ ['0', '0']).take 2).foldl
                  (fun a c => a * 10 + digitVal c) 0
              else 0)) ∧
    amountParse "7.5" = some (7, 50) ∧
    amountParse "3.1415" = some (3, 14) ∧
    amountParse "2.x5" = some (2, 0) ∧
    amountParse "12,34.99" = some (1234, 99) := by
  refine ⟨fun s p0 p1 rest hne hsplit => ?_, by decide, by decide,
    by decide, by decide⟩
  simp only [amountParse, if_neg hne, hsplit, List.headD_cons,
    List.drop_succ_cons, List.drop_zero]

/-- Witness for C7's split conjunct at `"8.25"`. -/
theorem amount_parse_decimal_split_witness :
    amountParse "8.25" =
      match (if "8" = "" then some (0 : Int) else pyInt "8") with
      | none => none
      | some major =>
          some (major,
            if pyIsdigit "25" then
              ((("25" : String).data ++ ['0', '0']).take 2).foldl
                (fun a c => a * 10 + digitVal c) 0
            else 0) :=
  amount_parse_decimal_split.1 "8.25" "8" "25" [] (by decide) (by decide)

/-- **C2** counterexample: the claim's pluralisation fails for the Gulf
currencies — for AED with major part 2 the code keeps the singular
"Dirham" where the claimed table demands "Dirhams". -/
theorem gulf_major_unit_invariant_cex :
    currency_units "AED" 2 50 = ("Dirham", "Fils") ∧
    unitChoice (claimedUnitTable "AED") 2 50 = ("Dirhams", "Fils") ∧
    currency_units "AED" 2 50 ≠ unitChoice (claimedUnitTable "AED") 2 50 ∧
    amount_to_words "2.00" "AED" = "Two Dirham Only" :=
  ⟨by decide, by decide, by decide, by decide⟩

/-- **C2** (corrected): for every supported currency the code's unit
names follow the singular-iff-1 rule over `codeUnitTable`, whose Gulf
major units are invariant ("Dirham"/"Rial"/"Dinar", never pluralised);
the USD examples hold as claimed. -/
theorem unit_names_number_agreement_amended :
    (∀ cur major minor, cur ∈ supportedCurrencies →
      currency_units cur major minor =
        unitChoice (codeUnitTable cur) major minor) ∧
    amount_to_words "1.00" "USD" = "One Dollar Only" ∧
    amount_to_words "1.01" "USD" = "One Dollar And One Cent Only" ∧
    amount_to_words "2.50" "USD" = "Two Dollars And Fifty Cents Only" ∧
    amount_to_words "2.00" "AED" = "Two Dirham Only" ∧
    amount_to_words "3.00" "SAR" = "Three Rial Only" ∧
    amount_to_words "4.00" "KWD" = "Four Dinar Only" := by
  refine ⟨fun cur major minor h => ?_, by decide, by decide, by decide,
    by decide, by decide, by decide⟩
  fin_cases h <;>
    first
    | rfl
    | (by_cases hM : major = 1 <;> by_cases hm : minor = 1 <;>
        simp [currency_units, codeUnitTable, unitChoice, hM, hm])

/-- Witness for C2's table conjunct at INR with major 5, minor 1. -/
theorem unit_names_number_agreement_amended_witness :
    currency_units "INR" 5 1 = unitChoice (codeUnitTable "INR") 5 1 :=
  unit_names_number_agreement_amended.1 "INR" 5 1 (by decide)

/-- **C1** counterexample: in the end-to-end scenario the stored
amount-words field is neither the converter's output (it is additionally
upper-cased) nor the claimed title-case string (which also lacks the
comma the numeral speller emits after "Thousand"). -/
theorem amount_words_field_title_case_cex :
    ((buildCtx aliceRemitter bobBeneficiary inrExtra
        "2025-01-15").lookup "amount_figures_text" ≠
      some (amount_to_words "1500.50" "INR")) ∧
    ((buildCtx aliceRemitter bobBeneficiary inrExtra
        "2025-01-15").lookup "amount_figures_text" ≠
      some "One Thousand Five Hundred Rupees And Fifty Paise Only") :=
  ⟨by decide, by decide⟩

/-- **C1** (corrected): the derived amount-words field equals the
**upper-cased** converter output for the normalized currency and the
whitespace-stripped amount string; in the end-to-end scenario it equals
"ONE THOUSAND, FIVE HUNDRED RUPEES AND FIFTY PAISE ONLY", the converter
itself producing the comma-bearing title-case phrase. -/
theorem amount_words_field_is_uppercased_converter_output :
    (∀ r b e today,
      (buildCtx r b e today).lookup "amount_figures_text" =
        some (pyUpper (amount_to_words (pyStrip (orStr e.amount_figures ""))
          (pyUpper (pyStrip (orStr e.currency "USD")))))) ∧
    ((buildCtx aliceRemitter bobBeneficiary inrExtra
        "2025-01-15").lookup "amount_figures_text" =
      some "ONE THOUSAND, FIVE HUNDRED RUPEES AND FIFTY PAISE ONLY") ∧
    amount_to_words "1500.50" "INR" =
      "One Thousand, Five Hundred Rupees And Fifty Paise Only" :=
  ⟨fun r b e today => rfl, by decide, by decide⟩

/-- **C8** counterexample: with every extras key absent the context's
charges field is "SHA", not the empty string the claim requires for
absent inputs. -/
theorem charges_default_cex :
    ((buildCtx emptyRemitterIn emptyBeneficiaryIn emptyExtraIn
        "2025-01-15").lookup "charges" = some "SHA") ∧
    ((buildCtx emptyRemitterIn emptyBeneficiaryIn emptyExtraIn
        "2025-01-15").lookup "charges" ≠ some "") :=
  ⟨by decide, by decide⟩

/-- **C8** (corrected): the context builder is total — the flat context
always carries exactly the fixed key list — and absent inputs map to the
empty string for every plain field, while currency defaults to "USD"
(present values are stripped and upper-cased), date defaults to the
current ISO date, and charges defaults to "SHA" rather than "". -/
theorem context_builder_totality_amended :
    ∀ r b e today,
      ((buildCtx r b e today).map Prod.fst = contextKeys) ∧
      (b.beneficiary_account_number = none →
        (buildCtx r b e today).lookup "beneficiary_account_number" = some "") ∧
      (b.beneficiary_name = none →
        (buildCtx r b e today).lookup "beneficiary_name" = some "") ∧
      (b.beneficiary_address = none →
        (buildCtx r b e today).lookup "beneficiary_address" = some "") ∧
      (b.beneficiary_country = none →
        (buildCtx r b e today).lookup "beneficiary_country" = some "") ∧
      (b.beneficiary_bank_name = none →
        (buildCtx r b e today).lookup "beneficiary_bank_name" = some "") ∧
      (b.beneficiary_bank_address = none →
        (buildCtx r b e today).lookup "beneficiary_bank_address" = some "") ∧
      (b.beneficiary_bank_country = none →
        (buildCtx r b e today).lookup "beneficiary_bank_country" = some "") ∧
      (b.beneficiary_bank_swift = none →
        (buildCtx r b e today).lookup "beneficiary_bank_swift" = some "") ∧
      (b.intermediary_bank_name = none →
        (buildCtx r b e today).lookup "intermediary_bank_name" = some "") ∧
      (b.intermediary_bank_address = none →
        (buildCtx r b e today).lookup "intermediary_bank_address" = some "") ∧
      (b.intermediary_bank_swift = none →
        (buildCtx r b e today).lookup "intermediary_bank_swift" = some "") ∧
      (r.name = none →
        (buildCtx r b e today).lookup "remitter_name" = some "") ∧
      (r.account_no = none →
        (buildCtx r b e today).lookup "remitter_account_no" = some "") ∧
      (r.address = none →
        (buildCtx r b e today).lookup "remitter_address" = some "") ∧
      (r.phone = none →
        (buildCtx r b e today).lookup "remitter_phone" = some "") ∧
      (r.id_type = none →
        (buildCtx r b e today).lookup "remitter_id_type" = some "") ∧
      (r.id_value = none →
        (buildCtx r b e today).lookup "remitter_id_value" = some "") ∧
      (e.amount_figures = none →
        (buildCtx r b e today).lookup "amount_figures" = some "") ∧
      (e.amount_figures = none →
        (buildCtx r b e today).lookup "amount_figures_text" = some "") ∧
      (e.account_to_be_debited_number_currency = none →
        (buildCtx r b e today).lookup "account_to_be_debited_number_currency" =
          some "") ∧
      (e.notes = none → (buildCtx r b e today).lookup "notes" = some "") ∧
      (e.date = none → (buildCtx r b e today).lookup "date" = some today) ∧
      (e.charges = none →
        (buildCtx r b e today).lookup "charges" = some "SHA") ∧
      (e.currency = none →
        (buildCtx r b e today).lookup "currency" = some "USD") ∧
      (∀ c, e.currency = some c → c ≠ "" →
        (buildCtx r b e today).lookup "currency" =
          some (pyUpper (pyStrip c))) := by
  intro r b e today
  refine ⟨rfl, fun h => ?_, fun h => ?_, fun h => ?_, fun h => ?_,
    fun h => ?_, fun h => ?_, fun h => ?_, fun h => ?_, fun h => ?_,
    fun h => ?_, fun h => ?_, fun h => ?_, fun h => ?_, fun h => ?_,
    fun h => ?_, fun h => ?_, fun h => ?_, fun h => ?_, fun h => ?_,
    fun h => ?_, fun h => ?_, fun h => ?_, fun h => ?_, fun h => ?_,
    fun c hc hne => ?_⟩
  all_goals try (simp only [buildCtx]; rw [h]; rfl)
  simp only [buildCtx, hc]
  have horc : orStr (some c) "USD" = c := by simp [orStr, hne]
  rw [horc]
  rfl

/-- Witness for C8's absent-field conjunct at the all-absent inputs. -/
theorem context_builder_totality_amended_witness :
    (buildCtx emptyRemitterIn emptyBeneficiaryIn emptyExtraIn
      "2025-01-15").lookup "beneficiary_account_number" = some "" :=
  (context_builder_totality_amended emptyRemitterIn emptyBeneficiaryIn
    emptyExtraIn "2025-01-15").2.1 rfl

/-- **C4** (confirmed): the resolver tries exactly three strategies in
order — direct URL (the identity fetch is never attempted: the result is
the URL for every store), identity fetch (falling through to the name
search only when the fetch raises), then the linear name scan returning
the first exact normalized match — and when nothing resolves the result
is empty; being a total function, no exception propagates. -/
theorem signature_resolver_fallback_order :
    (∀ st st' rem u, rem.signature_url = some u → u ≠ "" →
      fetch_signature_url_from_notion st rem = u ∧
      fetch_signature_url_from_notion st rem =
        fetch_signature_url_from_notion st' rem) ∧
    (∀ st rem pid u, orStr rem.signature_url "" = "" → rem.id = some pid →
      pid ≠ "" → st.fetchPageSignature pid = some u →
      fetch_signature_url_from_notion st rem = u) ∧
    (∀ st rem pid, orStr rem.signature_url "" = "" → rem.id = some pid →
      pid ≠ "" → st.fetchPageSignature pid = none →
      fetch_signature_url_from_notion st rem =
        find_remitter_signature_by_name st
          (orStr rem.name (orStr rem.remitter_name ""))) ∧
    (∀ st rem, orStr rem.signature_url "" = "" → orStr rem.id "" = "" →
      fetch_signature_url_from_notion st rem =
        find_remitter_signature_by_name st
          (orStr rem.name (orStr rem.remitter_name ""))) ∧
    (∀ st name pages pg, name ≠ "" → st.listRemitters = some pages →
      pages.find? (fun p => (p.pageName != "") &&
        (pyUpper (pyStrip p.pageName) == pyUpper (pyStrip name))) = some pg →
      find_remitter_signature_by_name st name = pg.signatureUrl) ∧
    (∀ st name pages, name ≠ "" → st.listRemitters = some pages →
      pages.find? (fun p => (p.pageName != "") &&
        (pyUpper (pyStrip p.pageName) == pyUpper (pyStrip name))) = none →
      find_remitter_signature_by_name st name = "") ∧
    (∀ st, find_remitter_signature_by_name st "" = "") ∧
    (∀ st name, st.listRemitters = none →
      find_remitter_signature_by_name st name = "") := by
  refine ⟨fun st st' rem u hs hne => ?_, fun st rem pid u h0 hid hpid hf => ?_,
    fun st rem pid h0 hid hpid hf => ?_, fun st rem h0 hid => ?_,
    fun st name pages pg hn hl hf => ?_, fun st name pages hn hl hf => ?_,
    fun st => rfl, fun st name hl => ?_⟩
  · constructor <;>
      simp [fetch_signature_url_from_notion, hs, orStr, hne]
  · simp only [fetch_signature_url_from_notion]
    rw [h0, hid]
    simp [orStr, hpid, hf]
  · simp only [fetch_signature_url_from_notion]
    rw [h0, hid]
    simp [orStr, hpid, hf]
  · simp only [fetch_signature_url_from_notion]
    rw [h0, hid]
    simp
  · simp [find_remitter_signature_by_name, hn, hl, hf]
  · simp [find_remitter_signature_by_name, hn, hl, hf]
  · simp [find_remitter_signature_by_name, hl]

/-- Witness for C4's identity-fetch conjunct at a concrete store and a
remitter carrying only an id. -/
theorem signature_resolver_fallback_order_witness :
    fetch_signature_url_from_notion exampleStore
      (RemitterIn.mk (some "p1") none none none none none none none none) =
      "http://sig-by-id" :=
  signature_resolver_fallback_order.2.1 exampleStore
    (RemitterIn.mk (some "p1") none none none none none none none none)
    "p1" "http://sig-by-id" rfl rfl (by decide) (by decide)

lemma lexLe_antisymm :
    ∀ as bs : List Char, lexLe as bs = true → lexLe bs as = true →
      as = bs := by
  intro as
  induction as with
  | nil =>
    intro bs _ h2
    cases bs with
    | nil => rfl
    | cons b bs => simp [lexLe] at h2
  | cons a as ih =>
    intro bs h1 h2
    cases bs with
    | nil => simp [lexLe] at h1
    | cons b bs =>
      simp only [lexLe] at h1 h2
      by_cases hab : a.toNat < b.toNat <;> by_cases hba : b.toNat < a.toNat <;>
        simp [hab, hba] at h1 h2
      · omega
      · have hv : a = b := by
          apply Char.eq_of_val_eq
          apply UInt32.eq_of_val_eq
          apply Fin.eq_of_val_eq
          have : a.toNat = b.toNat := by omega
          exact this
        rw [hv, ih bs h1 h2]

instance : IsAntisymm String strLe :=
  ⟨fun s t h1 h2 => by
    cases s with
    | mk sd =>
      cases t with
      | mk td => exact congrArg String.mk (lexLe_antisymm sd td h1 h2)⟩

lemma mem_sortedDedup {a : String} {l : List String} :
    a ∈ sortedDedup l ↔ a ∈ l := by
  unfold sortedDedup
  rw [(List.perm_insertionSort strLe l.dedup).mem_iff]
  exact List.mem_dedup

lemma sortedDedup_nodup (l : List String) : (sortedDedup l).Nodup :=
  ((List.perm_insertionSort strLe l.dedup).nodup_iff).2 (List.nodup_dedup l)

lemma sortedDedup_sorted (l : List String) :
    List.Sorted strLe (sortedDedup l) :=
  List.sorted_insertionSort strLe l.dedup

lemma sortedDedup_perm_eq {P Q : List String} (h : P.Perm Q) :
    sortedDedup P = sortedDedup Q :=
  List.eq_of_perm_of_sorted
    (((List.perm_insertionSort strLe P.dedup).trans h.dedup).trans
      (List.perm_insertionSort strLe Q.dedup).symm)
    (sortedDedup_sorted P) (sortedDedup_sorted Q)

lemma contains_congr_of_perm {K L : List String} (h : K.Perm L)
    (a : String) : K.contains a = L.contains a := by
  simp only [List.contains, List.elem_eq_mem]
  exact decide_eq_decide.mpr h.mem_iff

/-- **C3** (confirmed): reconciliation is a pure, order-insensitive set
difference — the missing list's elements are exactly the declared
placeholders absent from the context keys (case-sensitively), the list
is sorted and duplicate-free, permuting either input changes nothing,
and (when every other oracle succeeds) the handler renders if and only
if the difference is empty. -/
theorem reconciliation_set_difference :
    (∀ P K, (missing_vars (sortedDedup P) K).toFinset =
      P.toFinset \ K.toFinset) ∧
    (∀ P K, List.Sorted strLe (missing_vars (sortedDedup P) K)) ∧
    (∀ P K, (missing_vars (sortedDedup P) K).Nodup) ∧
    (∀ P K, missing_vars (sortedDedup P) K = [] ↔
      P.toFinset ⊆ K.toFinset) ∧
    (∀ P Q K L, P.Perm Q → K.Perm L →
      missing_vars (sortedDedup P) K = missing_vars (sortedDedup Q) L) ∧
    (∀ w r b e t wanted, w.envError = none → w.tplLoadError = none →
      w.varsWithEnv = Except.ok wanted → w.renderError = none →
      ((generate w r b e t).2 = true ↔
        missing_vars (sortedDedup wanted)
          ((buildCtx r b e t).map Prod.fst ++ ["signature"]) = [])) := by
  have hmem : ∀ P K a, a ∈ missing_vars (sortedDedup P) K ↔
      (a ∈ P ∧ a ∉ K) := by
    intro P K a
    simp [missing_vars, List.mem_filter, mem_sortedDedup, List.contains,
      List.elem_eq_mem]
  refine ⟨?_, ?_, ?_, ?_, ?_, ?_⟩
  · intro P K
    ext a
    simp [hmem, List.mem_toFinset, Finset.mem_sdiff]
  · intro P K
    exact List.Pairwise.sublist (List.filter_sublist _) (sortedDedup_sorted P)
  · intro P K
    exact List.Nodup.sublist (List.filter_sublist _) (sortedDedup_nodup P)
  · intro P K
    constructor
    · intro h x hx
      simp only [List.mem_toFinset] at hx ⊢
      by_contra hK
      have : x ∈ missing_vars (sortedDedup P) K := (hmem P K x).2 ⟨hx, hK⟩
      simp [h] at this
    · intro h
      rcases hn : missing_vars (sortedDedup P) K with _ | ⟨x, rest⟩
      · rfl
      · have hx : x ∈ missing_vars (sortedDedup P) K := by simp [hn]
        rcases (hmem P K x).1 hx with ⟨hP, hK⟩
        exact absurd (by
          have := h (List.mem_toFinset.2 hP)
          exact List.mem_toFinset.1 this) hK
  · intro P Q K L hPQ hKL
    unfold missing_vars
    rw [sortedDedup_perm_eq hPQ]
    exact List.filter_congr
      (fun a _ => congrArg (fun x => !x) (contains_congr_of_perm hKL a))
  · intro w r b e t wanted hE hT hV hR
    obtain ⟨wEnv, wPath, wTpl, wStore, wSig, wVE, wVN, wRen⟩ := w
    dsimp only at hE hT hV hR
    subst hE hT hV hR
    simp only [generate, list_template_vars]
    by_cases hm : missing_vars (sortedDedup wanted)
        ((buildCtx r b e t).map Prod.fst ++ ["signature"]) = []
    · rw [show ((buildCtx r b e t ++ [("signature",
        build_signature_image wSig
          (fetch_signature_url_from_notion wStore r))]).map Prod.fst) =
        ((buildCtx r b e t).map Prod.fst ++ ["signature"]) by
          simp]
      simp only [hm, iff_true]
      simp only [ne_eq, not_true_eq_false, if_false]
      by_cases ho : e.overwrite <;> simp [ho] <;>
        by_cases hp : orStr e.out_path "" = "" <;> simp [hp]
    · rw [show ((buildCtx r b e t ++ [("signature",
        build_signature_image wSig
          (fetch_signature_url_from_notion wStore r))]).map Prod.fst) =
        ((buildCtx r b e t).map Prod.fst ++ ["signature"]) by
          simp]
      simp [hm]

/-- Witness for C3's render-gate conjunct at a concrete world whose
template declares no variables. -/
theorem reconciliation_set_difference_witness :
    ((generate
      (GenWorld.mk none "TT_Form_template.docx" none exampleStore
        (fun u => some u) (Except.ok []) (Except.ok []) none)
      emptyRemitterIn emptyBeneficiaryIn emptyExtraIn "2025-01-15").2 =
        true ↔
      missing_vars (sortedDedup [])
        ((buildCtx emptyRemitterIn emptyBeneficiaryIn emptyExtraIn
          "2025-01-15").map Prod.fst ++ ["signature"]) = []) :=
  reconciliation_set_difference.2.2.2.2.2
    (GenWorld.mk none "TT_Form_template.docx" none exampleStore
      (fun u => some u) (Except.ok []) (Except.ok []) none)
    emptyRemitterIn emptyBeneficiaryIn emptyExtraIn "2025-01-15" []
    rfl rfl rfl rfl

/-- **C9** (confirmed): a reconciliation failure yields the structured
object with ok:false, the error message and the sorted missing list,
without rendering; every other failure of the generation path — failed
environment check, failed template load, a propagated enumeration
exception, or a render failure — yields ok:false with an error message
and no missing_variables field. -/
theorem generate_error_response_shapes :
    (∀ w r b e t wanted, w.envError = none → w.tplLoadError = none →
      w.varsWithEnv = Except.ok wanted →
      missing_vars (sortedDedup wanted)
        ((buildCtx r b e t).map Prod.fst ++ ["signature"]) ≠ [] →
      generate w r b e t =
        (GenResult.json
          (JsonResp.mk false (some "Missing variables for template")
            (some (missing_vars (sortedDedup wanted)
              ((buildCtx r b e t).map Prod.fst ++ ["signature"]))) none)
          400, false)) ∧
    (∀ w r b e t m, w.envError = some m →
      generate w r b e t =
        (GenResult.json (JsonResp.mk false (some m) none none) 400,
          false)) ∧
    (∀ w r b e t m, w.envError = none → w.tplLoadError = some m →
      generate w r b e t =
        (GenResult.json (JsonResp.mk false (some m) none none) 500,
          false)) ∧
    (∀ w r b e t exc, w.envError = none → w.tplLoadError = none →
      list_template_vars w.varsWithEnv w.varsWithoutEnv =
        Except.error exc →
      generate w r b e t =
        (GenResult.json
          (JsonResp.mk false (some (pyExcMsg exc)) none none) 500,
          false)) ∧
    (∀ w r b e t m wanted, w.envError = none → w.tplLoadError = none →
      w.varsWithEnv = Except.ok wanted → w.renderError = some m →
      missing_vars (sortedDedup wanted)
        ((buildCtx r b e t).map Prod.fst ++ ["signature"]) = [] →
      generate w r b e t =
        (GenResult.json (JsonResp.mk false (some m) none none) 500,
          true)) := by
  refine ⟨?_, ?_, ?_, ?_, ?_⟩
  · intro w r b e t wanted hE hT hV hm
    obtain ⟨wEnv, wPath, wTpl, wStore, wSig, wVE, wVN, wRen⟩ := w
    dsimp only at hE hT hV hm ⊢
    subst hE hT hV
    simp only [generate, list_template_vars]
    rw [show ((buildCtx r b e t ++ [("signature",
      build_signature_image wSig
        (fetch_signature_url_from_notion wStore r))]).map Prod.fst) =
      ((buildCtx r b e t).map Prod.fst ++ ["signature"]) by simp]
    simp [hm]
  · intro w r b e t m hE
    obtain ⟨wEnv, wPath, wTpl, wStore, wSig, wVE, wVN, wRen⟩ := w
    dsimp only at hE
    subst hE
    rfl
  · intro w r b e t m hE hT
    obtain ⟨wEnv, wPath, wTpl, wStore, wSig, wVE, wVN, wRen⟩ := w
    dsimp only at hE hT
    subst hE hT
    rfl
  · intro w r b e t exc hE hT hv
    obtain ⟨wEnv, wPath, wTpl, wStore, wSig, wVE, wVN, wRen⟩ := w
    dsimp only at hE hT hv
    subst hE hT
    simp only [generate]
    rw [hv]
  · intro w r b e t m wanted hE hT hV hR hm
    obtain ⟨wEnv, wPath, wTpl, wStore, wSig, wVE, wVN, wRen⟩ := w
    dsimp only at hE hT hV hR hm ⊢
    subst hE hT hV hR
    simp only [generate, list_template_vars]
    rw [show ((buildCtx r b e t ++ [("signature",
      build_signature_image wSig
        (fetch_signature_url_from_notion wStore r))]).map Prod.fst) =
      ((buildCtx r b e t).map Prod.fst ++ ["signature"]) by simp]
    simp [hm]

/-- Witness for C9's reconciliation-failure conjunct at a world whose
template declares the unsatisfiable variable "zzz_var". -/
theorem generate_error_response_shapes_witness :
    generate exampleWorldMissing emptyRemitterIn emptyBeneficiaryIn
      emptyExtraIn "2025-01-15" =
      (GenResult.json
        (JsonResp.mk false (some "Missing variables for template")
          (some (missing_vars (sortedDedup ["zzz_var"])
            ((buildCtx emptyRemitterIn emptyBeneficiaryIn emptyExtraIn
              "2025-01-15").map Prod.fst ++ ["signature"]))) none)
        400, false) :=
  generate_error_response_shapes.1 exampleWorldMissing emptyRemitterIn
    emptyBeneficiaryIn emptyExtraIn "2025-01-15" ["zzz_var"]
    rfl rfl rfl (by decide)

/-- **C10** counterexample: a `TypeError` from the enumeration is not
swallowed into an empty list — the retry's successful result is
returned instead. -/
theorem template_vars_typeerror_cex :
    list_template_vars
        (Except.error (PyExc.typeError "TypeError: unexpected keyword"))
        (Except.ok ["x"]) = Except.ok ["x"] ∧
    (Except.ok ["x"] : Except PyExc (List String)) ≠ Except.ok [] :=
  ⟨rfl, by simp⟩

/-- **C10** (corrected): a non-`TypeError` exception from the
enumeration is swallowed into an empty variable list; a `TypeError`
instead triggers the no-environment retry whose result — or exception —
is final; and with the empty list the reconciliation gate passes
vacuously, so rendering proceeds regardless of the context. -/
theorem template_vars_exception_swallow_amended :
    (∀ m other, list_template_vars (Except.error (PyExc.otherExc m))
      other = Except.ok []) ∧
    (∀ m vs, list_template_vars (Except.error (PyExc.typeError m))
      (Except.ok vs) = Except.ok (sortedDedup vs)) ∧
    (∀ m exc, list_template_vars (Except.error (PyExc.typeError m))
      (Except.error exc) = Except.error exc) ∧
    (∀ w r b e t m, w.envError = none → w.tplLoadError = none →
      w.varsWithEnv = Except.error (PyExc.otherExc m) →
      w.renderError = none → (generate w r b e t).2 = true) := by
  refine ⟨fun m other => rfl, fun m vs => rfl, fun m exc => rfl, ?_⟩
  intro w r b e t m hE hT hV hR
  obtain ⟨wEnv, wPath, wTpl, wStore, wSig, wVE, wVN, wRen⟩ := w
  dsimp only at hE hT hV hR
  subst hE hT hV hR
  simp only [generate, list_template_vars]
  simp only [missing_vars, List.filter_nil, ne_eq, not_true_eq_false,
    not_false_eq_true, if_true, if_false]
  by_cases ho : e.overwrite <;> simp [ho] <;>
    by_cases hp : orStr e.out_path "" = "" <;> simp [hp]

/-- Witness for C10's vacuous-gate conjunct at a concrete world whose
enumeration raises an attribute error. -/
theorem template_vars_exception_swallow_amended_witness :
    (generate exampleWorldVarsExc emptyRemitterIn emptyBeneficiaryIn
      emptyExtraIn "2025-01-15").2 = true :=
  template_vars_exception_swallow_amended.2.2.2 exampleWorldVarsExc
    emptyRemitterIn emptyBeneficiaryIn emptyExtraIn "2025-01-15"
    "AttributeNotFound: x" rfl rfl rfl rfl
